import Mathlib

/-!
# Verification of `src/app.js` (Nobelian)

Shallow embedding of the two components of `src/app.js`:

* the overlay controller (`openOverlay`, `closeOverlay`, `closeAllOverlays`,
  `anyOverlayOpen`, and the document-level dismissal listeners), and
* the translation service (`loadLanguage`, `applyTranslations`,
  `getTranslationValue`).

JavaScript values flowing through the translation code are JSON values
(produced by `response.json()`), modelled by `JValue` below.  JSON numbers
are modelled as integers (no claim depends on float formatting).  The
JavaScript semantics relevant to the source are modelled explicitly:

* truthiness (`if (value)`, `acc && …`),
* `Object.prototype.hasOwnProperty.call(acc, part)`, which boxes primitive
  receivers: a non-empty string has own properties `"0" … "len-1"` and
  `"length"`; arrays likewise have canonical index keys and `"length"`;
  numbers, booleans and `null`-ish receivers have no own properties
  (falsy receivers are short-circuited by `acc &&` before the call),
* property access `acc[part]` on objects, arrays and strings,
* string coercion (`el.textContent = value` / `setAttribute`) via
  `jsToString` (`String(value)`).

The DOM is modelled per the spec's DOM contract: the document exposes
exactly the two overlay elements (`#shop-overlay`, `#stories-overlay`);
the overlay state is the presence of the `"active"` class, plus the body's
inline `overflow` style.  Page elements carrying translation markers are
modelled as records of their marker attributes and translatable fields.
-/

namespace Nobelian

/-- JSON values, as returned by `response.json()`.  Numbers are modelled as
integers. -/
inductive JValue where
  | str (s : String)
  | num (n : Int)
  | jbool (b : Bool)
  | jnull
  | obj (fields : List (String × JValue))
  | arr (elems : List JValue)
  deriving Repr

/-- JavaScript truthiness of a JSON value (`if (value)`, `acc && …`). -/
def truthy : JValue → Bool
  | .str s => s ≠ ""
  | .num n => n ≠ 0
  | .jbool b => b
  | .jnull => false
  | .obj _ => true
  | .arr _ => true

/-- Models `s.split(".")` at the character level: splitting on `'.'`, keeping empty
segments, with `[] ↦ [""]` (as in JavaScript `"".split(".") === [""]`). -/
def splitOnDot : List Char → List (List Char)
  | [] => [[]]
  | c :: rest =>
    let r := splitOnDot rest
    if c = '.' then [] :: r
    else
      match r with
      | [] => [[c]]
      | h :: t => (c :: h) :: t

/-- Models `path.split(".")` from the source, producing `String` segments. -/
def jsSplitDot (s : String) : List String :=
  (splitOnDot s.data).map String.mk

/-- Reads a decimal digit string left to right (`none` if any character is
not a digit); the empty list reads as `0` and is rejected by the canonical
re-rendering check in `parseCanonIndex`. -/
def decDigits (cs : List Char) : Option Nat :=
  cs.foldl
    (fun acc c =>
      match acc with
      | some n => if '0' ≤ c ∧ c ≤ '9' then some (n * 10 + (c.toNat - '0'.toNat)) else none
      | none => none)
    (some 0)

/-- Parses `cs` as a canonical decimal index (the exact decimal rendering of
some natural number, so `""` and `"07"` are rejected). -/
def parseCanonIndex (cs : List Char) : Option Nat :=
  match decDigits cs with
  | some i => if Nat.toDigits 10 i == cs then some i else none
  | none => none

/-- Holds when `k` is a canonical array/string index below `n`: the decimal rendering of
some `i < n` (so `"07"` or `""` never qualify). -/
def canonIndex (k : String) (n : Nat) : Bool :=
  match parseCanonIndex k.data with
  | some i => i < n
  | none => false

/-- Models `Object.prototype.hasOwnProperty.call(v, k)`.  Objects own exactly their
parsed keys; boxed strings and arrays own their canonical indices and
`"length"`; other primitives own nothing. -/
def jsHasOwn : JValue → String → Bool
  | .obj fields, k => fields.any (fun p => p.1 == k)
  | .str s, k => k == "length" || canonIndex k s.length
  | .arr a, k => k == "length" || canonIndex k a.length
  | _, _ => false

/-- Property access `v[k]` (`none` = `undefined`).  On objects this is the
stored field; on strings, the one-character string at the index or the
length; on arrays, the element at the index or the length. -/
def jsIndex : JValue → String → Option JValue
  | .obj fields, k => (fields.find? (fun p => p.1 == k)).map (·.2)
  | .str s, k =>
    if k == "length" then some (.num s.length)
    else
      match parseCanonIndex k.data with
      | some i => (s.data.get? i).map (fun c => .str (String.mk [c]))
      | none => none
  | .arr a, k =>
    if k == "length" then some (.num a.length)
    else
      match parseCanonIndex k.data with
      | some i => a.get? i
      | none => none
  | _, _ => none

/-- Models `getTranslationValue(path)` from `src/app.js`, with the module-level
`translations` passed explicitly.  `!path` is true exactly for the empty
string here, in which case the source returns `""`; otherwise the source
reduces over `path.split(".")`, stepping with
`acc && hasOwnProperty(acc, part) ? acc[part] : undefined`. -/
def getTranslationValue (translations : JValue) (path : String) : Option JValue :=
  if path = "" then some (.str "")
  else
    (jsSplitDot path).foldl
      (fun acc part =>
        match acc with
        | some v => if truthy v && jsHasOwn v part then jsIndex v part else none
        | none => none)
      (some translations)

/-- The downstream effect test: `if (value) …`.  A lookup result is
*effective* (causes a write) iff it is defined and truthy. -/
def effective : Option JValue → Bool
  | none => false
  | some v => truthy v

mutual

/-- JavaScript string coercion `String(v)` of a JSON value: strings are
themselves, numbers and booleans print, `null` prints `"null"`, plain
objects print `"[object Object]"`, arrays join their elements with `","`
(with `null` elements contributing `""`, as `Array.prototype.join` does). -/
def jsToString : JValue → String
  | .str s => s
  | .num n => toString n
  | .jbool b => cond b "true" "false"
  | .jnull => "null"
  | .obj _ => "[object Object]"
  | .arr a => String.intercalate "," (jsToStringElems a)

/-- Element-wise coercion used by `Array.prototype.join`. -/
def jsToStringElems : List JValue → List String
  | [] => []
  | .jnull :: rest => "" :: jsToStringElems rest
  | v :: rest => jsToString v :: jsToStringElems rest

end

/-- Holds when `typeof v` is `"object"` in JavaScript terms (plain objects and arrays;
`null` is excluded here because a falsy receiver never reaches the
own-property test in the source). -/
def isJsObject : JValue → Bool
  | .obj _ => true
  | .arr _ => true
  | _ => false

/-- Holds when `v` is a non-empty string. -/
def nonEmptyStr : JValue → Bool
  | .str s => s ≠ ""
  | _ => false

/-- Resolution as the spec's words describe it: descend one segment at a
time, returning not-found (`none`) as soon as an intermediate value is
absent or is not an object containing the segment as an own key. -/
def specResolve (v : JValue) : List String → Option JValue
  | [] => some v
  | k :: rest =>
    if isJsObject v && jsHasOwn v k then
      match jsIndex v k with
      | some w => specResolve w rest
      | none => none
    else none

/-- Spec-worded resolution of a dotted path: an empty path resolves to
not-found. -/
def specResolvePath (t : JValue) (p : String) : Option JValue :=
  if p = "" then none else specResolve t (jsSplitDot p)

/-- Amended resolution: like `specResolve`, but a *non-empty string*
intermediate whose segment is one of its own keys (a canonical character
index or `"length"`) continues resolution into that character/length
value instead of returning not-found. -/
def specResolveAmended (v : JValue) : List String → Option JValue
  | [] => some v
  | k :: rest =>
    if (isJsObject v || nonEmptyStr v) && jsHasOwn v k then
      match jsIndex v k with
      | some w => specResolveAmended w rest
      | none => none
    else none

/-- Amended resolution of a dotted path: the empty path yields the empty
string (falsy, hence treated as not-found by every caller). -/
def specResolveAmendedPath (t : JValue) (p : String) : Option JValue :=
  if p = "" then some (.str "") else specResolveAmended t (jsSplitDot p)

/-- A DOM element as the translation code sees it: its four possible
translation marker attributes, its text content, and the three writable
target attributes. -/
structure Elem where
  dataI18n : Option String := none
  textContent : String := ""
  dataI18nPlaceholder : Option String := none
  placeholder : Option String := none
  dataI18nAriaLabel : Option String := none
  ariaLabel : Option String := none
  dataI18nAlt : Option String := none
  alt : Option String := none
  deriving Repr, DecidableEq

/-- The `[data-i18n]` pass of `applyTranslations` on one element:
`const value = getTranslationValue(key); if (value) el.textContent = value;`
(elements without the marker are untouched — they are not selected). -/
def applyTextEl (t : JValue) (el : Elem) : Elem :=
  match el.dataI18n with
  | none => el
  | some key =>
    match getTranslationValue t key with
    | some v => if truthy v then { el with textContent := jsToString v } else el
    | none => el

/-- Models `applyAttributeTranslations(attributeName, targetAttribute)` on one
element, parametrised by the marker-attribute reader and the target
attribute writer (mirroring the source's generic helper). -/
def applyAttrEl (t : JValue) (getKey : Elem → Option String)
    (set : Elem → String → Elem) (el : Elem) : Elem :=
  match getKey el with
  | some key =>
    match getTranslationValue t key with
    | some v => if truthy v then set el (jsToString v) else el
    | none => el
  | none => el

/-- Models `applyTranslations()` from the source over a page of elements: the
text pass, then the `placeholder`, `aria-label` and `alt` passes. -/
def applyTranslations (t : JValue) (page : List Elem) : List Elem :=
  let p := page.map (applyTextEl t)
  let p := p.map (applyAttrEl t (fun e => e.dataI18nPlaceholder)
    (fun e v => { e with placeholder := some v }))
  let p := p.map (applyAttrEl t (fun e => e.dataI18nAriaLabel)
    (fun e v => { e with ariaLabel := some v }))
  p.map (applyAttrEl t (fun e => e.dataI18nAlt) (fun e v => { e with alt := some v }))

/-- One marker of one element, as the claim words it: the element is
modified exactly when the key resolves (per the spec's resolution
algorithm) to a string, which then replaces the text/attribute. -/
def specApplyField (t : JValue) (getKey : Elem → Option String)
    (set : Elem → String → Elem) (el : Elem) : Elem :=
  match getKey el with
  | some key =>
    match specResolvePath t key with
    | some (.str s) => set el s
    | _ => el
  | none => el

/-- Restates `applyTranslations` as the claim words it, on one element. -/
def specApplyEl (t : JValue) (el : Elem) : Elem :=
  let e := specApplyField t (fun e => e.dataI18n) (fun e v => { e with textContent := v }) el
  let e := specApplyField t (fun e => e.dataI18nPlaceholder) (fun e v => { e with placeholder := some v }) e
  let e := specApplyField t (fun e => e.dataI18nAriaLabel) (fun e v => { e with ariaLabel := some v }) e
  specApplyField t (fun e => e.dataI18nAlt) (fun e v => { e with alt := some v }) e

/-- One marker of one element, as the amended claim words it: the element
is modified exactly when the key resolves (per the amended resolution) to
a truthy value, whose string coercion then replaces the text/attribute. -/
def specApplyAmendedField (t : JValue) (getKey : Elem → Option String)
    (set : Elem → String → Elem) (el : Elem) : Elem :=
  match getKey el with
  | some key =>
    match specResolveAmendedPath t key with
    | some v => if truthy v then set el (jsToString v) else el
    | none => el
  | none => el

/-- Restates `applyTranslations` as the amended claim words it, on one element. -/
def specApplyAmendedEl (t : JValue) (el : Elem) : Elem :=
  let e := specApplyAmendedField t (fun e => e.dataI18n) (fun e v => { e with textContent := v }) el
  let e := specApplyAmendedField t (fun e => e.dataI18nPlaceholder) (fun e v => { e with placeholder := some v }) e
  let e := specApplyAmendedField t (fun e => e.dataI18nAriaLabel) (fun e v => { e with ariaLabel := some v }) e
  specApplyAmendedField t (fun e => e.dataI18nAlt) (fun e v => { e with alt := some v }) e

/-- The `SUPPORTED_LANGS` list from the source. -/
def SUPPORTED_LANGS : List String := ["en", "hu", "de"]

/-- The `DEFAULT_LANG` code from the source. -/
def DEFAULT_LANG : String := "en"

/-- The `STORAGE_KEY` name from the source. -/
def STORAGE_KEY : String := "nobelian-preferred-language"

/-- The sanitisation step of `loadLanguage`:
`SUPPORTED_LANGS.includes(lang) ? lang : DEFAULT_LANG`. -/
def sanitizeLang (lang : String) : String :=
  if SUPPORTED_LANGS.contains lang then lang else DEFAULT_LANG

/-- The mutable state the translation service touches: the module-level
singletons (`currentLang`, `translations`), the persisted preference
(`localStorage` value under `STORAGE_KEY`, `none` = absent), the page's
translatable elements, and the language-selection control's displayed
value (`none` = the control is absent from the page). -/
structure TState where
  currentLang : String := DEFAULT_LANG
  translations : JValue := .obj []
  storage : Option String := none
  page : List Elem := []
  selectorValue : Option String := none
  deriving Repr

/-- Models `updateLanguageSwitcher()`: if the control is present, set its
displayed value to `currentLang`. -/
def updateLanguageSwitcher (st : TState) : TState :=
  match st.selectorValue with
  | some _ => { st with selectorValue := some st.currentLang }
  | none => st

/-- Models `loadLanguage(lang)` from the source.  The network (fetch + `.ok`
check + `.json()` parse) is abstracted as `net : String → Option JValue`;
`none` covers a network error, a non-success status and an unparseable
body, each of which lands in the `catch` block.  Returns the final state
together with the list of language codes attempted, in order (each entry
is one fetch).  The `catch` block retries with `DEFAULT_LANG` only when
the sanitised code differs from it, which bounds the recursion. -/
def loadLanguage (net : String → Option JValue) (st : TState) (lang : String) :
    TState × List String :=
  match net (sanitizeLang lang) with
  | some json =>
    let st1 := { st with translations := json, currentLang := sanitizeLang lang,
                         storage := some (sanitizeLang lang) }
    let st2 := updateLanguageSwitcher st1
    ({ st2 with page := applyTranslations json st2.page }, [sanitizeLang lang])
  | none =>
    if h : sanitizeLang lang ≠ DEFAULT_LANG then
      let r := loadLanguage net st DEFAULT_LANG
      (r.1, sanitizeLang lang :: r.2)
    else
      (st, [sanitizeLang lang])
termination_by (if sanitizeLang lang = DEFAULT_LANG then 0 else 1)
decreasing_by
  have h0 : sanitizeLang DEFAULT_LANG = DEFAULT_LANG := by decide
  simp [h0, h]

/- ----------------------------------------------------------------------
   Overlay controller
   ---------------------------------------------------------------------- -/

/-- The two overlay panels cached in the `overlays` registry. -/
inductive OverlayRef where
  | shop
  | stories
  deriving Repr, DecidableEq

/-- The DOM `id` attribute of each registered overlay element. -/
def elemId : OverlayRef → String
  | .shop => "shop-overlay"
  | .stories => "stories-overlay"

/-- Models `Object.values(overlays)` — the iteration order of the registry literal. -/
def registry : List OverlayRef := [.shop, .stories]

/-- Models `document.getElementById(id)` for the overlay subsystem.  Per the
spec's DOM contract the document exposes exactly the two overlay panels
as id-addressable elements relevant here; any other id yields `null`. -/
def getElem (id : String) : Option OverlayRef :=
  if id = "shop-overlay" then some .shop
  else if id = "stories-overlay" then some .stories
  else none

/-- The DOM state the overlay controller touches: whether each panel's
class list contains `"active"`, and the body's inline `overflow` style. -/
structure OSt where
  shopActive : Bool
  storiesActive : Bool
  bodyOverflow : String
  deriving Repr, DecidableEq

/-- Models `overlay.classList.contains("active")`. -/
def isActive (s : OSt) : OverlayRef → Bool
  | .shop => s.shopActive
  | .stories => s.storiesActive

/-- Models `classList.add("active")` and `classList.remove("active")`. -/
def setActive (s : OSt) (r : OverlayRef) (b : Bool) : OSt :=
  match r with
  | .shop => { s with shopActive := b }
  | .stories => { s with storiesActive := b }

/-- Models `anyOverlayOpen()` from the source. -/
def anyOverlayOpen (s : OSt) : Bool :=
  registry.any (fun r => isActive s r)

/-- Models `closeAllOverlays(except)` from the source: remove `"active"` from
every registry entry whose `id` differs from `except` (`none` models the
default `null`), then, if no overlay remains open, set
`document.body.style.overflow = "auto"`. -/
def closeAllOverlays (except : Option String) (s : OSt) : OSt :=
  let s1 := registry.foldl
    (fun acc r => if some (elemId r) = except then acc else setActive acc r false) s
  if anyOverlayOpen s1 then s1 else { s1 with bodyOverflow := "auto" }

/-- Models `openOverlay(id)` from the source.  `getElementById` runs first (no
fault), then `closeAllOverlays(id)`, and only then is the element
dereferenced: a `null` element faults there (`some errMsg` in the result),
*after* the close pass has already mutated the page.  On a registered id:
if already active, return early; otherwise add `"active"` and set
`overflow = "hidden"`. -/
def openOverlay (id : String) (s : OSt) : OSt × Option String :=
  let s1 := closeAllOverlays (some id) s
  match getElem id with
  | none => (s1, some "TypeError: cannot read classList of null")
  | some r =>
    if isActive s1 r then (s1, none)
    else ({ setActive s1 r true with bodyOverflow := "hidden" }, none)

/-- Models `closeOverlay(id)` from the source: remove `"active"` from the named
overlay, then, if no overlay remains open, restore `overflow = "auto"`.
A `null` element faults on the `classList.remove` call before any
mutation. -/
def closeOverlay (id : String) (s : OSt) : OSt × Option String :=
  match getElem id with
  | none => (s, some "TypeError: cannot read classList of null")
  | some r =>
    let s1 := setActive s r false
    if anyOverlayOpen s1 then (s1, none) else ({ s1 with bodyOverflow := "auto" }, none)

/-- Models `toggleOverlay(id)` from the source. -/
def toggleOverlay (id : String) (s : OSt) : OSt × Option String :=
  match getElem id with
  | none => (s, some "TypeError: cannot read classList of null")
  | some r =>
    if isActive s r then closeOverlay id s else openOverlay id s

/-- The document-level `keydown` listener: Escape closes everything. -/
def onKeydown (key : String) (s : OSt) : OSt :=
  if key = "Escape" then closeAllOverlays none s else s

/-- A state-changing overlay operation, for sequencing claims. -/
inductive OvOp where
  | openOp (id : String)
  | closeOp (id : String)
  | closeAllOp (except : Option String)
  deriving Repr, DecidableEq

/-- The state reached after an operation (a thrown `TypeError` leaves the
mutations performed before the throw in place). -/
def stepOv (op : OvOp) (s : OSt) : OSt :=
  match op with
  | .openOp id => (openOverlay id s).1
  | .closeOp id => (closeOverlay id s).1
  | .closeAllOp e => closeAllOverlays e s

/-- An operation references only registered overlay ids. -/
def validOp : OvOp → Bool
  | .openOp id => (getElem id).isSome
  | .closeOp id => (getElem id).isSome
  | .closeAllOp _ => true

/-- At most one overlay in the registry carries `"active"`. -/
def atMostOneOpen (s : OSt) : Bool :=
  !(s.shopActive && s.storiesActive)

/-- The scroll-lock coupling invariant: the body scroll is locked
(`overflow = "hidden"`) exactly when some overlay is open. -/
def lockedIffAnyOpen (s : OSt) : Prop :=
  s.bodyOverflow = "hidden" ↔ anyOverlayOpen s = true

instance (s : OSt) : Decidable (lockedIffAnyOpen s) := by
  unfold lockedIffAnyOpen; infer_instance

/-- Folding a sequence of `open` calls (the state after each call). -/
def runOpens (ids : List String) (s : OSt) : OSt :=
  ids.foldl (fun t i => (openOverlay i t).1) s

/-- Folding a sequence of overlay operations. -/
def runOps (ops : List OvOp) (s : OSt) : OSt :=
  ops.foldl (fun t op => stepOv op t) s

/- ----------------------------------------------------------------------
   Overlay controller: computed forms
   ---------------------------------------------------------------------- -/

lemma closeAllOverlays_eq (e : Option String) (s : OSt) :
    closeAllOverlays e s =
      { shopActive := if some "shop-overlay" = e then s.shopActive else false,
        storiesActive := if some "stories-overlay" = e then s.storiesActive else false,
        bodyOverflow :=
          if ((if some "shop-overlay" = e then s.shopActive else false) ||
              (if some "stories-overlay" = e then s.storiesActive else false))
          then s.bodyOverflow else "auto" } := by
  by_cases h1 : some "shop-overlay" = e <;> by_cases h2 : some "stories-overlay" = e <;>
    simp [closeAllOverlays, registry, anyOverlayOpen, isActive, setActive, elemId, h1, h2] <;>
    (split <;> simp_all)

lemma openOverlay_shop (s : OSt) :
    openOverlay "shop-overlay" s =
      ({ shopActive := true, storiesActive := false,
         bodyOverflow := if s.shopActive then s.bodyOverflow else "hidden" }, none) := by
  cases hs : s.shopActive <;>
    simp [openOverlay, closeAllOverlays_eq, getElem, isActive, setActive,
      anyOverlayOpen, registry, hs]

lemma openOverlay_stories (s : OSt) :
    openOverlay "stories-overlay" s =
      ({ shopActive := false, storiesActive := true,
         bodyOverflow := if s.storiesActive then s.bodyOverflow else "hidden" }, none) := by
  cases hs : s.storiesActive <;>
    simp [openOverlay, closeAllOverlays_eq, getElem, isActive, setActive,
      anyOverlayOpen, registry, hs]

lemma closeOverlay_shop (s : OSt) :
    closeOverlay "shop-overlay" s =
      ({ shopActive := false, storiesActive := s.storiesActive,
         bodyOverflow := if s.storiesActive then s.bodyOverflow else "auto" }, none) := by
  cases hs : s.storiesActive <;>
    simp [closeOverlay, getElem, isActive, setActive, anyOverlayOpen, registry, hs]

lemma closeOverlay_stories (s : OSt) :
    closeOverlay "stories-overlay" s =
      ({ shopActive := s.shopActive, storiesActive := false,
         bodyOverflow := if s.shopActive then s.bodyOverflow else "auto" }, none) := by
  cases hs : s.shopActive <;>
    simp [closeOverlay, getElem, isActive, setActive, anyOverlayOpen, registry, hs]

lemma getElem_cases {id : String} (h : (getElem id).isSome = true) :
    id = "shop-overlay" ∨ id = "stories-overlay" := by
  unfold getElem at h
  split_ifs at h with h1 h2
  · exact Or.inl h1
  · exact Or.inr h2
  · simp at h

lemma atMostOneOpen_open {id : String} (h : (getElem id).isSome = true) (s : OSt) :
    atMostOneOpen ((openOverlay id s).1) = true := by
  rcases getElem_cases h with h | h <;> subst h
  · rw [openOverlay_shop]; rfl
  · rw [openOverlay_stories]; rfl

lemma runOpens_take_succ (ids : List String) (s : OSt) (n : Nat) (hn : n < ids.length) :
    runOpens (ids.take (n + 1)) s
      = (openOverlay ids[n] (runOpens (ids.take n) s)).1 := by
  unfold runOpens
  rw [List.take_succ, List.getElem?_eq_getElem hn, List.foldl_append]
  simp only [Option.toList_some, List.foldl_cons, List.foldl_nil]

/-- C1: for every sequence of `open(id)` calls with registered ids, after
each call (i.e. after every non-empty prefix of the sequence) at most one
overlay in the registry carries the `"active"` marker. -/
theorem c1_open_mutual_exclusion (ids : List String) (s : OSt)
    (hreg : ∀ i ∈ ids, (getElem i).isSome = true)
    (n : Nat) (hn : n < ids.length) :
    atMostOneOpen (runOpens (ids.take (n + 1)) s) = true := by
  rw [runOpens_take_succ ids s n hn]
  exact atMostOneOpen_open (hreg _ (List.getElem_mem hn)) _

/-- Witness for C1: a concrete sequence of three registered `open` calls,
checked after its last call. -/
theorem c1_open_mutual_exclusion_witness :
    atMostOneOpen (runOpens
      (["shop-overlay", "stories-overlay", "shop-overlay"].take (2 + 1))
      ⟨false, false, "auto"⟩) = true :=
  c1_open_mutual_exclusion ["shop-overlay", "stories-overlay", "shop-overlay"]
    ⟨false, false, "auto"⟩ (by decide) 2 (by decide)

/-- C9: on a registered id, `open` is idempotent — a second `open(id)`
right after a first returns the very same observable state (and no
error), and the target overlay is already active when the second call
reaches its early-return check, so its own open transition is skipped. -/
theorem c9_open_idempotent (id : String) (r : OverlayRef) (s : OSt)
    (h : getElem id = some r) :
    openOverlay id ((openOverlay id s).1) = ((openOverlay id s).1, none)
      ∧ isActive ((openOverlay id s).1) r = true := by
  have hcases : id = "shop-overlay" ∨ id = "stories-overlay" :=
    getElem_cases (by rw [h]; rfl)
  rcases hcases with hid | hid <;> subst hid
  · have hr : r = OverlayRef.shop := by
      have : some OverlayRef.shop = some r := by rw [← h]; rfl
      injection this with h2; exact h2.symm
    subst hr
    constructor
    · rw [openOverlay_shop, openOverlay_shop]
      simp
    · rw [openOverlay_shop]; rfl
  · have hr : r = OverlayRef.stories := by
      have : some OverlayRef.stories = some r := by rw [← h]; rfl
      injection this with h2; exact h2.symm
    subst hr
    constructor
    · rw [openOverlay_stories, openOverlay_stories]
      simp
    · rw [openOverlay_stories]; rfl

/-- Witness for C9: a concrete repeated `open` on the shop overlay. -/
theorem c9_open_idempotent_witness :
    openOverlay "shop-overlay" ((openOverlay "shop-overlay" ⟨false, true, "hidden"⟩).1)
        = ((openOverlay "shop-overlay" ⟨false, true, "hidden"⟩).1, none)
      ∧ isActive ((openOverlay "shop-overlay" ⟨false, true, "hidden"⟩).1) .shop = true :=
  c9_open_idempotent "shop-overlay" .shop ⟨false, true, "hidden"⟩ rfl

/-- C10: `closeAllOverlays` with no exception (as run by the Escape
listener and the backdrop-click listener) always leaves every overlay
closed and unconditionally writes `body.style.overflow = "auto"`, even
when nothing was open — overwriting any pre-existing overflow value (the
concrete state below had `overflow = "scroll"`); more generally, whenever
no overlay is open after the close pass, `"auto"` is written. -/
theorem c10_closeAll_frame_effect :
    (∀ s : OSt, closeAllOverlays none s = ⟨false, false, "auto"⟩)
      ∧ (∀ s : OSt, onKeydown "Escape" s = ⟨false, false, "auto"⟩)
      ∧ closeAllOverlays none ⟨false, false, "scroll"⟩ = ⟨false, false, "auto"⟩
      ∧ (∀ (e : Option String) (s : OSt),
          anyOverlayOpen (closeAllOverlays e s) = false →
          (closeAllOverlays e s).bodyOverflow = "auto") := by
  have hall : ∀ s : OSt, closeAllOverlays none s = ⟨false, false, "auto"⟩ := by
    intro s; rw [closeAllOverlays_eq]; simp
  refine ⟨hall, fun s => ?_, hall _, fun e s h => ?_⟩
  · simp [onKeydown, hall]
  · rw [closeAllOverlays_eq] at h ⊢
    simp only [anyOverlayOpen, registry, isActive] at h
    by_cases h1 : some "shop-overlay" = e <;> by_cases h2 : some "stories-overlay" = e <;>
      simp_all

/-- Witness for C10: the general part applied at a concrete call that
keeps an (already closed) shop overlay exempt while the open stories
overlay is closed. -/
theorem c10_closeAll_frame_effect_witness :
    (closeAllOverlays (some "shop-overlay") ⟨false, true, "hidden"⟩).bodyOverflow = "auto" :=
  c10_closeAll_frame_effect.2.2.2 (some "shop-overlay") ⟨false, true, "hidden"⟩ (by decide)

/-- Counterexample for C3: `open` on an unregistered id does throw, but it
is not a state-preserving fail-fast fault — with the shop overlay open and
scroll locked, `openOverlay("no-such-overlay")` first runs the close pass,
closing the shop overlay and releasing the scroll lock, and only then
faults.  So the call *does* perform state changes. -/
theorem c3_counterexample :
    (openOverlay "no-such-overlay" ⟨true, false, "hidden"⟩).2.isSome = true
      ∧ (openOverlay "no-such-overlay" ⟨true, false, "hidden"⟩).1
          = ⟨false, false, "auto"⟩
      ∧ (openOverlay "no-such-overlay" ⟨true, false, "hidden"⟩).1
          ≠ ⟨true, false, "hidden"⟩ := by
  refine ⟨rfl, rfl, ?_⟩
  decide

/-- C3 as amended: `open` on an id that resolves to no element faults with
a NotFound-style (null-dereference) error rather than silently no-opping,
and it neither marks any overlay open nor locks the scroll — but it is not
fail-fast: the mutual-exclusion close pass has already run, leaving every
overlay closed and `overflow = "auto"`. -/
theorem c3_amended (id : String) (s : OSt) (h : getElem id = none) :
    openOverlay id s
      = (⟨false, false, "auto"⟩, some "TypeError: cannot read classList of null") := by
  have h1 : id ≠ "shop-overlay" := by
    intro he; rw [he] at h; simp [getElem] at h
  have h2 : id ≠ "stories-overlay" := by
    intro he; rw [he] at h; simp [getElem] at h
  have e1 : some "shop-overlay" ≠ some id := by
    intro he; injection he with he; exact h1 he.symm
  have e2 : some "stories-overlay" ≠ some id := by
    intro he; injection he with he; exact h2 he.symm
  simp [openOverlay, h, closeAllOverlays_eq, e1, e2]

/-- Witness for C3's amended theorem at a concrete unregistered id. -/
theorem c3_amended_witness :
    openOverlay "nope" ⟨false, true, "scroll"⟩
      = (⟨false, false, "auto"⟩, some "TypeError: cannot read classList of null") :=
  c3_amended "nope" ⟨false, true, "scroll"⟩ rfl

lemma stepOv_preserves_lock (op : OvOp) (s : OSt) (hv : validOp op = true)
    (hs : lockedIffAnyOpen s) : lockedIffAnyOpen (stepOv op s) := by
  unfold lockedIffAnyOpen anyOverlayOpen registry at hs ⊢
  simp only [List.any_cons, List.any_nil, isActive, Bool.or_false] at hs ⊢
  rcases op with id | id | e
  · rcases getElem_cases (show (getElem id).isSome = true from hv) with h | h <;> subst h
    · rw [stepOv, openOverlay_shop]
      cases ha : s.shopActive <;> simp_all
    · rw [stepOv, openOverlay_stories]
      cases ha : s.storiesActive <;> simp_all
  · rcases getElem_cases (show (getElem id).isSome = true from hv) with h | h <;> subst h
    · rw [stepOv, closeOverlay_shop]
      cases hb : s.storiesActive <;> simp_all
    · rw [stepOv, closeOverlay_stories]
      cases ha : s.shopActive <;> simp_all
  · rw [stepOv, closeAllOverlays_eq]
    by_cases h1 : some "shop-overlay" = e <;> by_cases h2 : some "stories-overlay" = e <;>
      cases ha : s.shopActive <;> cases hb : s.storiesActive <;> simp_all

/-- C2: the scroll-lock coupling is an invariant — if the body scroll is
locked exactly when some overlay is open, then after any sequence of
state-changing operations (`open`, `close`, `closeAll`) on registered
ids it is still locked exactly when some overlay is open.  Instantiating
the sequence at each prefix gives the coupling after every operation. -/
theorem c2_scroll_lock_coupling (ops : List OvOp) (s : OSt)
    (hops : ∀ op ∈ ops, validOp op = true) (hs : lockedIffAnyOpen s) :
    lockedIffAnyOpen (runOps ops s) := by
  induction ops generalizing s with
  | nil => exact hs
  | cons op rest ih =>
    have h1 := stepOv_preserves_lock op s (hops op (by simp)) hs
    exact ih (stepOv op s) (fun o ho => hops o (by simp [ho])) h1

/-- Witness for C2: a concrete run — open shop, open stories, close
stories, close everything — starting from the unlocked all-closed state. -/
theorem c2_scroll_lock_coupling_witness :
    lockedIffAnyOpen (runOps
      [.openOp "shop-overlay", .openOp "stories-overlay",
       .closeOp "stories-overlay", .closeAllOp none]
      ⟨false, false, "auto"⟩) :=
  c2_scroll_lock_coupling
    [.openOp "shop-overlay", .openOp "stories-overlay",
     .closeOp "stories-overlay", .closeAllOp none]
    ⟨false, false, "auto"⟩ (by decide) (by decide)

/- ----------------------------------------------------------------------
   Translation service: resolver equivalence
   ---------------------------------------------------------------------- -/

lemma truthy_and_hasOwn (v : JValue) (k : String) :
    (truthy v && jsHasOwn v k) = ((isJsObject v || nonEmptyStr v) && jsHasOwn v k) := by
  cases v <;> simp [truthy, jsHasOwn, isJsObject, nonEmptyStr]

lemma foldl_resolveAmended (parts : List String) (acc : Option JValue) :
    parts.foldl
      (fun acc part =>
        match acc with
        | some v => if truthy v && jsHasOwn v part then jsIndex v part else none
        | none => none) acc
    = match acc with
      | some v => specResolveAmended v parts
      | none => none := by
  induction parts generalizing acc with
  | nil => cases acc <;> simp [specResolveAmended]
  | cons k rest ih =>
    rw [List.foldl_cons, ih]
    cases acc with
    | none => rfl
    | some v =>
      show (match (if truthy v && jsHasOwn v k then jsIndex v k else none) with
            | some w => specResolveAmended w rest
            | none => none)
          = specResolveAmended v (k :: rest)
      simp only [specResolveAmended]
      rw [truthy_and_hasOwn]
      by_cases hg : ((isJsObject v || nonEmptyStr v) && jsHasOwn v k) = true
      · rw [if_pos hg, if_pos hg]
      · rw [if_neg hg, if_neg hg]

lemma getTranslationValue_eq_amended (t : JValue) (p : String) :
    getTranslationValue t p = specResolveAmendedPath t p := by
  unfold getTranslationValue specResolveAmendedPath
  by_cases hp : p = ""
  · simp [hp]
  · simp only [hp, if_false]
    exact foldl_resolveAmended (jsSplitDot p) (some t)

/-- Counterexample for C5: with translation map `{"nav": "Home"}` and path
`"nav.length"`, the intermediate value `"Home"` is not an object, so the
claimed algorithm returns not-found — but the code resolves to the boxed
string's own `length` property, the number `4`, which is truthy and hence
effective downstream. -/
theorem c5_counterexample :
    specResolvePath (.obj [("nav", .str "Home")]) "nav.length" = none
      ∧ getTranslationValue (.obj [("nav", .str "Home")]) "nav.length" = some (.num 4)
      ∧ effective (getTranslationValue (.obj [("nav", .str "Home")]) "nav.length") = true :=
  ⟨rfl, rfl, rfl⟩

/-- C5 as amended: resolution descends the map one segment at a time and
returns not-found as soon as an intermediate value is absent, falsy, or
neither an object nor a non-empty string containing the segment as an own
key — a non-empty string intermediate is descended through its own
character-index and `"length"` properties.  An empty path yields the
empty string, which is falsy and therefore not-found for every caller.
The claim's concrete examples hold: `"nav.home"` resolves to `"Home"`,
while `"nav.missing"` and `""` are ineffective (not-found). -/
theorem c5_key_resolution :
    (∀ (t : JValue) (p : String), getTranslationValue t p = specResolveAmendedPath t p)
      ∧ getTranslationValue (.obj [("nav", .obj [("home", .str "Home")])]) "nav.home"
          = some (.str "Home")
      ∧ effective
          (getTranslationValue (.obj [("nav", .obj [("home", .str "Home")])]) "nav.missing")
          = false
      ∧ effective (getTranslationValue (.obj [("nav", .obj [("home", .str "Home")])]) "")
          = false :=
  ⟨getTranslationValue_eq_amended, rfl, rfl, rfl⟩

/-- Counterexample for C4: with translation map `{"greeting": ""}`, the
marker key `"greeting"` resolves to a string (the empty string), so the
claim requires the element's text to be replaced by it — but the code's
`if (value)` truthiness guard skips falsy values, leaving the original
text `"Hello"` untouched.  The code therefore does *not* modify an
element exactly when its key resolves to a string. -/
theorem c4_counterexample :
    specResolvePath (.obj [("greeting", .str "")]) "greeting" = some (.str "")
      ∧ applyTranslations (.obj [("greeting", .str "")])
          [{ dataI18n := some "greeting", textContent := "Hello" }]
          = [{ dataI18n := some "greeting", textContent := "Hello" }]
      ∧ specApplyEl (.obj [("greeting", .str "")])
          { dataI18n := some "greeting", textContent := "Hello" }
          = { dataI18n := some "greeting", textContent := "" }
      ∧ ({ dataI18n := some "greeting", textContent := "Hello" } : Elem)
          ≠ { dataI18n := some "greeting", textContent := "" } := by
  refine ⟨rfl, rfl, rfl, ?_⟩
  decide

/-- C4 as amended: `applyTranslations` modifies an element's text (or the
designated attribute) exactly when its marker key resolves — under the
amended resolution — to a *truthy* value, and the written text is that
value's JavaScript string coercion; a falsy result (missing path, falsy
intermediate, or a falsy leaf such as the empty string) leaves the
element unmodified. -/
theorem c4_apply_translations (t : JValue) (page : List Elem) :
    applyTranslations t page = page.map (specApplyAmendedEl t) := by
  have hText : ∀ el, applyTextEl t el
      = specApplyAmendedField t (fun e => e.dataI18n)
          (fun e v => { e with textContent := v }) el := by
    intro el
    unfold applyTextEl specApplyAmendedField
    cases h : el.dataI18n <;> simp [h, getTranslationValue_eq_amended]
  have hAttr : ∀ (getKey : Elem → Option String) (set : Elem → String → Elem) el,
      applyAttrEl t getKey set el = specApplyAmendedField t getKey set el := by
    intro getKey set el
    unfold applyAttrEl specApplyAmendedField
    cases h : getKey el <;> simp [h, getTranslationValue_eq_amended]
  unfold applyTranslations specApplyAmendedEl
  simp only [List.map_map]
  apply List.map_congr_left
  intro el _
  simp only [Function.comp_apply, hText, hAttr]

/- ----------------------------------------------------------------------
   Translation service: loading and fallback
   ---------------------------------------------------------------------- -/

lemma sanitizeLang_default : sanitizeLang DEFAULT_LANG = DEFAULT_LANG := by decide

lemma loadLanguage_default_fail (net : String → Option JValue) (st : TState)
    (h : net DEFAULT_LANG = none) :
    loadLanguage net st DEFAULT_LANG = (st, [DEFAULT_LANG]) := by
  unfold loadLanguage
  rw [sanitizeLang_default, h]
  simp

lemma updateLanguageSwitcher_fields (st : TState) :
    (updateLanguageSwitcher st).currentLang = st.currentLang
      ∧ (updateLanguageSwitcher st).translations = st.translations
      ∧ (updateLanguageSwitcher st).storage = st.storage
      ∧ (updateLanguageSwitcher st).page = st.page := by
  unfold updateLanguageSwitcher
  cases st.selectorValue <;> simp

/-- C6: when the requested language sanitises to a non-default code and
both it and the default fail to load, `loadLanguage` makes exactly the
two attempts `[requested, default]`, stops (the function is total — the
recursion is bounded to one retry), and changes nothing. -/
theorem c6_fallback_bound (net : String → Option JValue) (st : TState) (lang : String)
    (h1 : sanitizeLang lang ≠ DEFAULT_LANG)
    (h2 : net (sanitizeLang lang) = none) (h3 : net DEFAULT_LANG = none) :
    loadLanguage net st lang = (st, [sanitizeLang lang, DEFAULT_LANG]) := by
  unfold loadLanguage
  rw [h2, dif_pos h1, loadLanguage_default_fail net st h3]

/-- Witness for C6: requesting `"hu"` against a network where every fetch
fails makes exactly the attempts `["hu", "en"]`. -/
theorem c6_fallback_bound_witness :
    loadLanguage (fun _ => none) {} "hu" = ({}, ["hu", "en"]) :=
  c6_fallback_bound (fun _ => none) {} "hu" (by decide) rfl rfl

/-- C7: an unsupported code is sanitised to the default language — the
default's content is the single fetch, its translations are stored and
applied to the page, and the persisted preference becomes the default
code, never the unsupported one. -/
theorem c7_language_sanitization (net : String → Option JValue) (st : TState)
    (lang : String) (j : JValue)
    (h1 : SUPPORTED_LANGS.contains lang = false)
    (h2 : net DEFAULT_LANG = some j) :
    (loadLanguage net st lang).2 = [DEFAULT_LANG]
      ∧ (loadLanguage net st lang).1.translations = j
      ∧ (loadLanguage net st lang).1.currentLang = DEFAULT_LANG
      ∧ (loadLanguage net st lang).1.storage = some DEFAULT_LANG
      ∧ (loadLanguage net st lang).1.storage ≠ some lang
      ∧ (loadLanguage net st lang).1.page = applyTranslations j st.page := by
  have hs : sanitizeLang lang = DEFAULT_LANG := by
    unfold sanitizeLang
    rw [h1]
    rfl
  have hlang : lang ≠ DEFAULT_LANG := by
    intro he
    rw [he] at h1
    exact absurd h1 (by decide)
  have hload : loadLanguage net st lang
      = ({ updateLanguageSwitcher
             { st with translations := j, currentLang := DEFAULT_LANG,
                       storage := some DEFAULT_LANG } with
           page := applyTranslations j st.page }, [DEFAULT_LANG]) := by
    conv_lhs => rw [loadLanguage]
    rw [hs, h2]
    cases hsel : st.selectorValue <;> simp [updateLanguageSwitcher, hsel]
  obtain ⟨hc, ht, hst, hp⟩ := updateLanguageSwitcher_fields
    { st with translations := j, currentLang := DEFAULT_LANG, storage := some DEFAULT_LANG }
  rw [hload]
  refine ⟨rfl, ht.trans rfl, hc.trans rfl, hst.trans rfl, ?_, rfl⟩
  intro he
  have h3 : some DEFAULT_LANG = some lang := Eq.trans (Eq.symm (hst.trans rfl)) he
  injection h3 with h4
  exact hlang h4.symm

/-- Witness for C7: requesting `"fr"` fetches and applies `"en"` and
persists `"en"`, not `"fr"`. -/
theorem c7_language_sanitization_witness :
    (loadLanguage (fun _ => some (.obj [("hello", .str "Hi")])) {} "fr").2 = ["en"]
      ∧ (loadLanguage (fun _ => some (.obj [("hello", .str "Hi")])) {} "fr").1.translations
          = .obj [("hello", .str "Hi")]
      ∧ (loadLanguage (fun _ => some (.obj [("hello", .str "Hi")])) {} "fr").1.currentLang
          = "en"
      ∧ (loadLanguage (fun _ => some (.obj [("hello", .str "Hi")])) {} "fr").1.storage
          = some "en"
      ∧ (loadLanguage (fun _ => some (.obj [("hello", .str "Hi")])) {} "fr").1.storage
          ≠ some "fr"
      ∧ (loadLanguage (fun _ => some (.obj [("hello", .str "Hi")])) {} "fr").1.page
          = applyTranslations (.obj [("hello", .str "Hi")]) (TState.page {}) :=
  c7_language_sanitization (fun _ => some (.obj [("hello", .str "Hi")])) {} "fr"
    (.obj [("hello", .str "Hi")]) (by decide) rfl

/-- C8: a failing load attempt mutates nothing.  If the fetch for the
sanitised code fails, then (a) when the default also fails (or the
sanitised code *was* the default) the whole call returns the state
unchanged, only logging; and (b) when a fallback runs, it runs from the
state exactly as it was before the failing attempt. -/
theorem c8_failure_atomicity (net : String → Option JValue) (st : TState) (lang : String)
    (h : net (sanitizeLang lang) = none) :
    (net DEFAULT_LANG = none → (loadLanguage net st lang).1 = st)
      ∧ (sanitizeLang lang = DEFAULT_LANG → loadLanguage net st lang = (st, [DEFAULT_LANG]))
      ∧ (sanitizeLang lang ≠ DEFAULT_LANG →
          loadLanguage net st lang
            = ((loadLanguage net st DEFAULT_LANG).1,
               sanitizeLang lang :: (loadLanguage net st DEFAULT_LANG).2)) := by
  have hstep : loadLanguage net st lang
      = if sanitizeLang lang = DEFAULT_LANG then (st, [sanitizeLang lang])
        else ((loadLanguage net st DEFAULT_LANG).1,
              sanitizeLang lang :: (loadLanguage net st DEFAULT_LANG).2) := by
    conv_lhs => rw [loadLanguage]
    rw [h]
    by_cases hd : sanitizeLang lang = DEFAULT_LANG
    · simp [hd]
    · simp [hd]
  refine ⟨fun h3 => ?_, fun hd => ?_, fun hd => ?_⟩
  · rw [hstep]
    by_cases hd : sanitizeLang lang = DEFAULT_LANG
    · rw [if_pos hd]
    · rw [if_neg hd, loadLanguage_default_fail net st h3]
  · rw [hstep, if_pos hd, hd]
  · rw [hstep, if_neg hd]

/-- Witness for C8: a fully failing network, requested code `"de"`. -/
theorem c8_failure_atomicity_witness :
    ((fun _ : String => (none : Option JValue)) DEFAULT_LANG = none →
        (loadLanguage (fun _ => none) {} "de").1 = {})
      ∧ (sanitizeLang "de" = DEFAULT_LANG →
          loadLanguage (fun _ => none) {} "de" = ({}, [DEFAULT_LANG]))
      ∧ (sanitizeLang "de" ≠ DEFAULT_LANG →
          loadLanguage (fun _ => none) {} "de"
            = ((loadLanguage (fun _ => none) {} DEFAULT_LANG).1,
               sanitizeLang "de" :: (loadLanguage (fun _ => none) {} DEFAULT_LANG).2)) :=
  c8_failure_atomicity (fun _ => none) {} "de" rfl

end Nobelian
